import Mathlib

/-!
Shallow embedding of the feed-synchronization core of `instawebhooks`
(`src/instawebhooks/__main__.py`) together with the memory model its test
suite exercises, and proofs of the specification claims about it.

Time is modelled as an integer number of seconds.  A Python `datetime` is a
`DateTime` below: a value together with an awareness flag, because CPython
raises `TypeError` when a naive datetime is ordered against an aware one.
Exceptions are modelled by the `Exc` enumeration and `Except` results; a
lazily-produced feed is a list of cells, each either a post or the exception
the iterator raises at that point.
-/

/-- A Python `datetime`: `aware` is whether it carries tzinfo, `value` is the
instant in seconds. -/
structure DateTime where
  aware : Bool
  value : Int
deriving DecidableEq

/-- Exceptions that the embedded code can raise or handle. -/
inductive Exc
  /-- models `instaloader.exceptions.ConnectionException` -/
  | conn
  /-- models `instaloader.exceptions.QueryReturnedBadRequestException` -/
  | badReq
  /-- models `instaloader.exceptions.ProfileNotExistsException` -/
  | notFound
  /-- models `instaloader.exceptions.LoginRequiredException` -/
  | loginReq
  /-- models the `TypeError` from ordering a naive datetime against an aware one -/
  | tzType
  /-- an exception raised by the Discord webhook send -/
  | sendFail
deriving DecidableEq

/-- Python `a < b` on datetimes: compares the instants when both operands have
the same awareness, raises `TypeError` otherwise. -/
def dtLt (a b : DateTime) : Except Exc Bool :=
  if a.aware = b.aware then .ok (decide (a.value < b.value)) else .error .tzType

/-- The fields of an `instaloader.structures.Post` that the module reads
(`owner_full_name` stands for `post.owner_profile.full_name`). -/
structure Post where
  shortcode : String
  date : DateTime
  is_pinned : Bool
  owner_username : String
  owner_full_name : String
  caption : Option String
  url : String
deriving DecidableEq

/-- One step of the lazy feed iterator: a post, or the exception `next()`
raises at that point. -/
abbrev FeedCell := Except Exc Post

/-- The `cutoff_date = datetime.now() - timedelta(days=7)` value — built from the naive
`datetime.now()`, so it is a naive datetime. -/
def fetchCutoff (now : Int) : DateTime :=
  ⟨false, now - 7 * 86400⟩

/-- The exception types named in the `except` clause of `fetch_new_posts`. -/
def caughtByFetch : Exc → Bool
  | .conn => true
  | .badReq => true
  | _ => false

/-- The `for post in posts` loop of `fetch_new_posts`, with its surrounding
`try`/`except`: `acc` is the `posts_to_send` list accumulated so far and
`count` the counter.  A cell exception of a kind named in the `except` clause
ends the walk keeping the gathered posts; any other exception (including the
`TypeError` from the cutoff comparison) propagates. -/
def fetchLoop (cutoff : DateTime) (last_shortcode : String) (limit : Nat) :
    List FeedCell → List Post → Nat → Except Exc (List Post)
  | [], acc, _ => .ok acc
  | .error e :: _, acc, _ => if caughtByFetch e then .ok acc else .error e
  | .ok post :: rest, acc, count =>
    match dtLt post.date cutoff with
    | .error e => .error e
    | .ok true => .ok acc
    | .ok false =>
      if post.shortcode = last_shortcode then .ok acc
      else if post.is_pinned then fetchLoop cutoff last_shortcode limit rest acc count
      else
        if count + 1 ≥ limit then .ok (acc ++ [post])
        else fetchLoop cutoff last_shortcode limit rest (acc ++ [post]) (count + 1)

/-- Source `fetch_new_posts(posts, last_shortcode, posts_to_send, limit=50)`: walks
the feed newest-first until the cutoff date, the checkpointed shortcode or the
cap, returning the final contents of `posts_to_send`. -/
def fetch_new_posts (now : Int) (posts : List FeedCell) (last_shortcode : String)
    (posts_to_send : List Post) (limit : Nat) : Except Exc (List Post) :=
  fetchLoop (fetchCutoff now) last_shortcode limit posts posts_to_send 0

/-- The bootstrap catch-up loop
`for post in takewhile(lambda _: catchup > 0, posts)`: `takewhile` pulls the
next cell before testing the predicate, so a raising cell raises even when
the remaining count is zero; the loop body appends and decrements. -/
def catchupLoop : Nat → List FeedCell → Except Exc (List Post)
  | _, [] => .ok []
  | _, .error e :: _ => .error e
  | c, .ok p :: rest =>
    if c > 0 then (catchupLoop (c - 1) rest).map (p :: ·) else .ok []

/-- The `takewhile(lambda p: p.date > until, ...)` stage over the remaining cells. -/
def takeFresh (until_ : DateTime) : List FeedCell → Except Exc (List Post)
  | [] => .ok []
  | .error e :: _ => .error e
  | .ok p :: rest => do
    if ← dtLt until_ p.date then (takeFresh until_ rest).map (p :: ·) else .ok []

/-- The `dropwhile(lambda p: p.date > since, posts)` stage feeding `takewhile`: the
first cell whose date is not after `since` is handed to `takeFresh`, which
re-tests it against `until_`. -/
def dropStale (since until_ : DateTime) : List FeedCell → Except Exc (List Post)
  | [] => .ok []
  | .error e :: _ => .error e
  | .ok p :: rest => do
    if ← dtLt since p.date then dropStale since until_ rest
    else takeFresh until_ (.ok p :: rest)

/-- The `else` arm of `check_for_new_posts` (no usable checkpoint):
`since = datetime.now()`, `until = datetime.now() - timedelta(seconds=refresh_interval)`,
both naive. -/
def bootstrap (now refresh_interval : Int) (catchup : Nat)
    (posts : List FeedCell) : Except Exc (List Post) :=
  if catchup > 0 then catchupLoop catchup posts
  else dropStale ⟨false, now⟩ ⟨false, now - refresh_interval⟩ posts

/-- The batch-selection part of `check_for_new_posts`: `mem` is the result of
`load_last_shortcode` (`None` for a missing or empty memory file); Python's
`if last_shortcode:` is truthiness, so `some ""` also falls to the bootstrap
arm.  Resume mode calls `fetch_new_posts` with an empty `posts_to_send` and
the default limit of 50. -/
def reconcile (now refresh_interval : Int) (catchup : Nat) (mem : Option String)
    (posts : List FeedCell) : Except Exc (List Post) :=
  match mem with
  | some last_shortcode =>
    if last_shortcode ≠ "" then fetch_new_posts now posts last_shortcode [] 50
    else bootstrap now refresh_interval catchup posts
  | none => bootstrap now refresh_interval catchup posts

/-- Observable outcome of one `check_for_new_posts` call: the memory-file
content afterwards (`save_last_shortcode` writes survive an exception), the
posts successfully sent in send order, and the exception escaping the call,
if any. -/
structure CycleOut where
  mem : Option String
  sent : List Post
  exc : Option Exc
deriving DecidableEq

/-- The send loop `for post in reversed(posts_to_send)` (its input is already
reversed here): each successful `send_to_discord` is followed at once by
`save_last_shortcode`; a send exception escapes with the saves so far kept.
`sendOk` is the external notifier outcome per post. -/
def deliver (sendOk : Post → Bool) : List Post → Option String → CycleOut
  | [], mem => ⟨mem, [], none⟩
  | p :: rest, mem =>
    if sendOk p then
      let r := deliver sendOk rest (some p.shortcode)
      ⟨r.mem, p :: r.sent, r.exc⟩
    else ⟨mem, [], some .sendFail⟩

/-- The exception types named in the `except` clause around
`Profile.from_username(...).get_posts()` in `check_for_new_posts`. -/
def caughtAtProfileFetch : Exc → Bool
  | .conn => true
  | .badReq => true
  | .notFound => true
  | .loginReq => true
  | _ => false

/-- Source `check_for_new_posts(catchup=args.catchup)`: `profileResult` is the
outcome of the profile/feed fetch; a caught profile error logs and returns
(skip this run), otherwise the batch is selected and sent oldest-first. -/
def check_for_new_posts (now refresh_interval : Int) (catchup : Nat)
    (profileResult : Except Exc (List FeedCell)) (mem : Option String)
    (sendOk : Post → Bool) : CycleOut :=
  match profileResult with
  | .error e => if caughtAtProfileFetch e then ⟨mem, [], none⟩ else ⟨mem, [], some e⟩
  | .ok posts =>
    match reconcile now refresh_interval catchup mem posts with
    | .error e => ⟨mem, [], some e⟩
    | .ok posts_to_send =>
      if posts_to_send.isEmpty then ⟨mem, [], none⟩
      else deliver sendOk posts_to_send.reverse mem

/-- How the process leaves (or re-enters) the `while True` loop in `main`
after one cycle. -/
inductive ProcExit
  /-- the cycle returned normally and `args.once` is off: sleep and repeat -/
  | continueLoop
  /-- the cycle returned normally and `args.once` is on: clean exit -/
  | runOnceExit
  /-- a `SystemExit` with a message: non-zero process exit -/
  | fatalExit (msg : String)
  /-- an exception no handler in `main` names: the process crashes -/
  | crashed (e : Exc)
deriving DecidableEq

/-- The exception handling of `main` around one loop iteration: only
`LoginRequiredException` is turned into a `SystemExit`; any other exception
escaping `check_for_new_posts` is uncaught. -/
def main_step (once : Bool) (out : CycleOut) : ProcExit :=
  match out.exc with
  | none => if once then .runOnceExit else .continueLoop
  | some .loginReq => .fatalExit "Not logged in. Please login with the --login flag."
  | some e => .crashed e

/-- Python `str.replace` on character lists, with explicit fuel (one unit per
emitted character) so that it is structurally recursive; the patterns used in
this development are the fixed non-empty placeholder strings, for which the
fuel `l.length` never runs out. -/
def replaceAllFuel (pat rep : List Char) : Nat → List Char → List Char
  | _, [] => []
  | 0, l => l
  | fuel + 1, c :: rest =>
    if pat ≠ [] ∧ pat.isPrefixOf (c :: rest) then
      rep ++ replaceAllFuel pat rep fuel ((c :: rest).drop pat.length)
    else
      c :: replaceAllFuel pat rep fuel rest

/-- Python `s.replace(pat, rep)` — replaces every non-overlapping occurrence,
scanning left to right. -/
def pyReplace (s pat rep : String) : String :=
  ⟨replaceAllFuel pat.data rep.data s.data.length s.data⟩

/-- Whether `pat` occurs as a contiguous sublist of the haystack. -/
def hasSubstr (pat : List Char) : List Char → Bool
  | [] => pat.isEmpty
  | c :: rest => pat.isPrefixOf (c :: rest) || hasSubstr pat rest

/-- The `placeholders` dict of `format_message`, in insertion order. -/
def placeholder_pairs (post : Post) : List (String × String) :=
  [("{post_url}", "https://www.instagram.com/p/" ++ post.shortcode ++ "/"),
   ("{owner_url}", "https://www.instagram.com/" ++ post.owner_username ++ "/"),
   ("{owner_name}", post.owner_full_name),
   ("{owner_username}", post.owner_username),
   ("{post_caption}", post.caption.getD ""),
   ("{post_shortcode}", post.shortcode),
   ("{post_image_url}", post.url)]

/-- Source `format_message(post)`: folds `args.message_content = args.message_content.replace(...)`
over the placeholder dict, returning the new value of the module-global
`args.message_content`. -/
def format_message (post : Post) (message_content : String) : String :=
  (placeholder_pairs post).foldl (fun mc pv => pyReplace mc pv.1 pv.2) message_content

/-- The `args.message_content` state transition of one `send_to_discord`
call: the global is rewritten by `format_message` when non-empty, and the
webhook is sent exactly this new value. -/
def send_to_discord_mc (post : Post) (message_content : String) : String :=
  if message_content ≠ "" then format_message post message_content
  else message_content

/-- The contents handed to the webhook across a sequence of
`send_to_discord` calls, threading the module-global `args.message_content`. -/
def delivered_contents (posts : List Post) (message_content : String) : List String :=
  match posts with
  | [] => []
  | p :: rest =>
    let mc2 := send_to_discord_mc p message_content
    mc2 :: delivered_contents rest mc2

/-- One retained entry of the structured memory record (spec §3).  Fields the
migration paths cannot know are `none`. -/
structure SentPostEntry where
  shortcode : String
  timestamp : DateTime
  sent_at : DateTime
  type_tag : Option String
  type_display : Option String
  is_video : Option Bool
  is_pinned : Option Bool
  caption_preview : Option String
  url : Option String
deriving DecidableEq

/-- The derived `stats` summary of a memory record (spec §3). -/
structure MemoryStats where
  total_sent : Nat
  last_post_shortcode : Option String
  last_post_timestamp : Option DateTime
  last_post_type : Option String
  type_counts : List (String × Nat)
deriving DecidableEq

/-- The structured per-entity memory record (spec §3 `SyncRecord`). -/
structure SyncRecord where
  last_check : Option DateTime
  sent_posts : List SentPostEntry
  stats : MemoryStats
deriving DecidableEq

/-- The shapes the persisted state file can take, as detected by the loader
(spec §4.1): absent, current structured schema, legacy single-object JSON,
or non-JSON plain text. -/
inductive StateFileContent
  | absent
  | structured (record : SyncRecord)
  | legacyJson (shortcode : String) (timestamp : DateTime)
  | plainText (text : String)

/-- Modelled from the spec: `load_memory` is imported by
`tests/test_memory.py` from `instawebhooks.__main__` but is not present in
the source under `src/` (which only has the bare-string
`load_last_shortcode`); this follows spec §4.1 `load`: (a) absent file →
fresh empty record; (b) current schema → as-is; (c) legacy single-object
JSON → one entry with the timestamp normalized to UTC-aware, `total_sent=1`,
empty `type_counts`; (d) non-JSON plain text → the trimmed text as a bare
shortcode, migrated identically with the timestamp defaulted to the
migration-time now. -/
def load_memory (now : DateTime) : StateFileContent → SyncRecord
  | .absent => ⟨none, [], ⟨0, none, none, none, []⟩⟩
  | .structured r => r
  | .legacyJson sc ts =>
    let ts2 : DateTime := ⟨true, ts.value⟩
    ⟨none, [⟨sc, ts2, now, none, none, none, none, none, none⟩],
     ⟨1, some sc, some ts2, none, []⟩⟩
  | .plainText raw =>
    let sc := raw.trim
    ⟨none, [⟨sc, now, now, none, none, none, none, none, none⟩],
     ⟨1, some sc, some now, none, []⟩⟩

/-- Concrete witness input: the newest non-pinned post of the sample feed. -/
def wPost1 : Post :=
  ⟨"AAA1", ⟨false, 9999000⟩, false, "alice", "Alice A", some "hello", "https://example.com/1.jpg"⟩

/-- Concrete witness input: the second non-pinned post of the sample feed. -/
def wPost2 : Post :=
  ⟨"AAA2", ⟨false, 9998000⟩, false, "alice", "Alice A", none, "https://example.com/2.jpg"⟩

/-- Concrete witness input: the third non-pinned post of the sample feed. -/
def wPost3 : Post :=
  ⟨"AAA3", ⟨false, 9997000⟩, false, "alice", "Alice A", none, "https://example.com/3.jpg"⟩

/-- Concrete witness input: the checkpointed post, shortcode `CKPT`. -/
def wCk : Post :=
  ⟨"CKPT", ⟨false, 9996000⟩, false, "alice", "Alice A", none, "https://example.com/0.jpg"⟩

/-- Concrete witness input: a pinned post inside the 7-day window. -/
def wPinned : Post :=
  ⟨"PINNED", ⟨false, 9999500⟩, true, "alice", "Alice A", none, "https://example.com/p.jpg"⟩

/-- Concrete witness input: a pinned post older than the 7-day window
(`9000000 < 10000000 - 604800`). -/
def wOldPinned : Post :=
  ⟨"OLD1", ⟨false, 9000000⟩, true, "alice", "Alice A", none, "https://example.com/o.jpg"⟩

/-- Concrete input mirroring the `tests/test_timezone.py` mock: a recent,
non-pinned post whose date is timezone-aware (two days before now). -/
def wAware : Post :=
  ⟨"RECENT1", ⟨true, 9827200⟩, false, "alice", "Alice A", none, "https://example.com/r.jpg"⟩

/-- A naive date at or after the naive cutoff compares as not-older. -/
theorem dtLt_within (d : DateTime) (now : Int) (ha : d.aware = false)
    (hv : now - 7 * 86400 ≤ d.value) : dtLt d (fetchCutoff now) = .ok false := by
  simp [dtLt, fetchCutoff, ha]
  omega

/-- A naive date strictly before the naive cutoff compares as older. -/
theorem dtLt_older (d : DateTime) (now : Int) (ha : d.aware = false)
    (hv : d.value < now - 7 * 86400) : dtLt d (fetchCutoff now) = .ok true := by
  simp [dtLt, fetchCutoff, ha]
  omega

/-- An aware date ordered against the naive cutoff raises `TypeError`. -/
theorem dtLt_aware (d : DateTime) (now : Int) (ha : d.aware = true) :
    dtLt d (fetchCutoff now) = .error .tzType := by
  simp [dtLt, fetchCutoff, ha]

/-- Walking a clean prefix (within-window, non-checkpoint, non-pinned posts)
accepts every prefix post: either the cap is hit exactly at the end of the
prefix, or the walk continues on the remaining cells with the prefix
accepted. -/
theorem fetchLoop_clean_front (cutoff : DateTime) (last : String) (limit : Nat)
    (pre : List Post) :
    ∀ (tail : List FeedCell) (acc : List Post) (count : Nat),
    (∀ p ∈ pre, dtLt p.date cutoff = .ok false ∧ p.shortcode ≠ last ∧
      p.is_pinned = false) →
    count + pre.length ≤ limit → count < limit →
    fetchLoop cutoff last limit (pre.map Except.ok ++ tail) acc count =
      if count + pre.length = limit then .ok (acc ++ pre)
      else fetchLoop cutoff last limit tail (acc ++ pre) (count + pre.length) := by
  induction pre with
  | nil =>
    intro tail acc count _ _ hlt
    simp [Nat.ne_of_lt hlt]
  | cons p pr ih =>
    intro tail acc count hpre hle hlt
    obtain ⟨hd, hs, hpin⟩ := hpre p (List.mem_cons_self p pr)
    simp only [List.map_cons, List.cons_append, fetchLoop, hd, hs, hpin,
      if_false, ite_false, Bool.false_eq_true, List.append_eq]
    by_cases hcap : count + 1 ≥ limit
    · have hlim : count + 1 = limit := by omega
      have hpr : pr.length = 0 := by
        simp only [List.length_cons] at hle
        omega
      have hpr' : pr = [] := List.length_eq_zero.mp hpr
      subst hpr'
      rw [if_pos hcap]
      simp [← hlim]
    · rw [if_neg hcap]
      have hcap' : count + 1 < limit := by omega
      rw [ih tail (acc ++ [p]) (count + 1)
        (fun q hq => hpre q (List.mem_cons_of_mem p hq))
        (by simp only [List.length_cons] at hle; omega) hcap']
      have harith : count + 1 + pr.length = count + (p :: pr).length := by
        simp [List.length_cons]; omega
      have happ : acc ++ [p] ++ pr = acc ++ p :: pr := by simp
      rw [harith, happ]

/-- Invariant of the walk: starting below the cap with a pinned-free
accumulator whose length is the counter, a normal return is at most `limit`
posts long and contains no pinned post. -/
theorem fetchLoop_ok_inv (cutoff : DateTime) (last : String) (limit : Nat)
    (posts : List FeedCell) :
    ∀ (acc : List Post) (count : Nat) (batch : List Post),
    count = acc.length → count < limit →
    (∀ p ∈ acc, p.is_pinned = false) →
    fetchLoop cutoff last limit posts acc count = .ok batch →
    batch.length ≤ limit ∧ ∀ p ∈ batch, p.is_pinned = false := by
  induction posts with
  | nil =>
    intro acc count batch hc hlt hacc h
    simp only [fetchLoop, Except.ok.injEq] at h
    subst h
    exact ⟨by omega, hacc⟩
  | cons cell rest ih =>
    intro acc count batch hc hlt hacc h
    cases cell with
    | error e =>
      simp only [fetchLoop] at h
      split at h
      · simp only [Except.ok.injEq] at h
        subst h
        exact ⟨by omega, hacc⟩
      · exact absurd h (by simp)
    | ok post =>
      simp only [fetchLoop] at h
      cases hdt : dtLt post.date cutoff with
      | error e =>
        rw [hdt] at h
        exact absurd h (by simp)
      | ok older =>
        rw [hdt] at h
        cases older with
        | true =>
          simp only [Except.ok.injEq] at h
          subst h
          exact ⟨by omega, hacc⟩
        | false =>
          simp only at h
          split at h
          · simp only [Except.ok.injEq] at h
            subst h
            exact ⟨by omega, hacc⟩
          · split at h
            · exact ih acc count batch hc hlt hacc h
            · rename_i hpin
              split at h
              · simp only [Except.ok.injEq] at h
                subst h
                constructor
                · simp only [List.length_append, List.length_cons,
                    List.length_nil]
                  omega
                · intro p hp
                  rcases List.mem_append.mp hp with hp1 | hp2
                  · exact hacc p hp1
                  · simp only [List.mem_singleton] at hp2
                    subst hp2
                    exact Bool.eq_false_iff.mpr hpin
              · rename_i hcap
                exact ih (acc ++ [post]) (count + 1) batch
                  (by simp [hc])
                  (by omega)
                  (fun p hp => by
                    rcases List.mem_append.mp hp with hp1 | hp2
                    · exact hacc p hp1
                    · simp only [List.mem_singleton] at hp2
                      subst hp2
                      exact Bool.eq_false_iff.mpr hpin)
                  h

/-- On a feed without iterator errors, the catch-up loop takes exactly the
first `n` items, whatever their pin status or dates. -/
theorem catchupLoop_map_ok (posts : List Post) :
    ∀ n : Nat, catchupLoop n (posts.map Except.ok) = .ok (posts.take n) := by
  induction posts with
  | nil => intro n; simp [catchupLoop]
  | cons p rest ih =>
    intro n
    cases n with
    | zero => simp [catchupLoop]
    | succ m => simp [catchupLoop, ih m, Except.map]

/-- When every send succeeds, the delivery loop sends the whole batch in
order and no exception escapes. -/
theorem deliver_all_ok (sendOk : Post → Bool) :
    ∀ (l : List Post) (mem : Option String), (∀ p ∈ l, sendOk p = true) →
    (deliver sendOk l mem).sent = l ∧ (deliver sendOk l mem).exc = none := by
  intro l
  induction l with
  | nil => intro mem _; exact ⟨rfl, rfl⟩
  | cons p rest ih =>
    intro mem h
    have hp := h p (List.mem_cons_self p rest)
    have hrest := ih (some p.shortcode) (fun q hq => h q (List.mem_cons_of_mem p hq))
    simp only [deliver, hp, if_true]
    exact ⟨by simp [hrest.1], by simp [hrest.2]⟩

/-- If the pattern does not occur in the haystack, fuelled replacement with
enough fuel is the identity. -/
theorem replaceAllFuel_of_not_hasSubstr (pat rep : List Char) :
    ∀ (l : List Char) (fuel : Nat), l.length ≤ fuel →
    hasSubstr pat l = false → replaceAllFuel pat rep fuel l = l := by
  intro l
  induction l with
  | nil =>
    intro fuel _ _
    cases fuel <;> simp [replaceAllFuel]
  | cons c rest ih =>
    intro fuel hle hsub
    simp only [hasSubstr, Bool.or_eq_false_iff] at hsub
    cases fuel with
    | zero => simp at hle
    | succ f =>
      simp only [replaceAllFuel, hsub.1, Bool.false_eq_true, and_false,
        ite_false, if_false]
      rw [ih f (by simp only [List.length_cons] at hle; omega) hsub.2]

/-- If the pattern does not occur in the string, Python replace returns the
string unchanged. -/
theorem pyReplace_of_not_hasSubstr (s pat rep : String)
    (h : hasSubstr pat.data s.data = false) : pyReplace s pat rep = s := by
  unfold pyReplace
  rw [replaceAllFuel_of_not_hasSubstr pat.data rep.data s.data s.data.length
    le_rfl h]

/-- Folding replacements over pairs whose patterns do not occur leaves the
message unchanged. -/
theorem foldl_pyReplace_id :
    ∀ (pvs : List (String × String)) (mc : String),
    (∀ pv ∈ pvs, hasSubstr pv.1.data mc.data = false) →
    pvs.foldl (fun mc pv => pyReplace mc pv.1 pv.2) mc = mc := by
  intro pvs
  induction pvs with
  | nil => intro mc _; rfl
  | cons pv rest ih =>
    intro mc h
    simp only [List.foldl_cons]
    rw [pyReplace_of_not_hasSubstr mc pv.1 pv.2 (h pv (List.mem_cons_self pv rest))]
    exact ih mc (fun q hq => h q (List.mem_cons_of_mem pv hq))

/-- Once none of a post's placeholder patterns occurs in the module-global
message content, `format_message` is the identity on it. -/
theorem format_message_id (post : Post) (mc : String)
    (h : ∀ pv ∈ placeholder_pairs post, hasSubstr pv.1.data mc.data = false) :
    format_message post mc = mc :=
  foldl_pyReplace_id (placeholder_pairs post) mc h

/-- Claim C1: in resume mode, when the checkpointed identifier appears in the
feed after `k ≤ 50` newer, non-pinned, within-7-day-window items, the
reconciler accepts exactly those `k` items, and the orchestrator delivers
them oldest-first, reversing the newest-first walk order. -/
theorem c1_resume_oldest_first (now refresh_interval : Int) (catchup : Nat)
    (last : String) (pre : List Post) (ck : Post) (rest : List FeedCell)
    (hlast : last ≠ "")
    (hk : pre.length ≤ 50)
    (hpre : ∀ p ∈ pre, p.date.aware = false ∧ now - 7 * 86400 ≤ p.date.value ∧
      p.is_pinned = false ∧ p.shortcode ≠ last)
    (hck : ck.shortcode = last) (hcka : ck.date.aware = false)
    (hckv : now - 7 * 86400 ≤ ck.date.value)
    (hsort : pre.Pairwise fun a b => b.date.value ≤ a.date.value) :
    reconcile now refresh_interval catchup (some last)
        (pre.map Except.ok ++ Except.ok ck :: rest) = .ok pre ∧
    (check_for_new_posts now refresh_interval catchup
        (.ok (pre.map Except.ok ++ Except.ok ck :: rest)) (some last)
        (fun _ => true)).sent = pre.reverse ∧
    (check_for_new_posts now refresh_interval catchup
        (.ok (pre.map Except.ok ++ Except.ok ck :: rest)) (some last)
        (fun _ => true)).sent.Pairwise
      (fun a b => a.date.value ≤ b.date.value) := by
  have hpre' : ∀ p ∈ pre, dtLt p.date (fetchCutoff now) = .ok false ∧
      p.shortcode ≠ last ∧ p.is_pinned = false := fun p hp =>
    ⟨dtLt_within p.date now (hpre p hp).1 (hpre p hp).2.1,
     (hpre p hp).2.2.2, (hpre p hp).2.2.1⟩
  have hfetch : fetch_new_posts now (pre.map Except.ok ++ Except.ok ck :: rest)
      last [] 50 = .ok pre := by
    unfold fetch_new_posts
    rw [fetchLoop_clean_front (fetchCutoff now) last 50 pre
      (Except.ok ck :: rest) [] 0 hpre' (by omega) (by omega)]
    by_cases h50 : 0 + pre.length = 50
    · rw [if_pos h50]
      simp
    · rw [if_neg h50]
      simp only [List.nil_append, fetchLoop,
        dtLt_within ck.date now hcka hckv, hck, if_pos rfl]
      simp
  have hrec : reconcile now refresh_interval catchup (some last)
      (pre.map Except.ok ++ Except.ok ck :: rest) = .ok pre := by
    simp only [reconcile, ne_eq, hlast, not_false_iff, if_true, ite_not]
    simpa using hfetch
  refine ⟨hrec, ?_⟩
  have hcheck : check_for_new_posts now refresh_interval catchup
      (.ok (pre.map Except.ok ++ Except.ok ck :: rest)) (some last)
      (fun _ => true) =
      if pre.isEmpty then ⟨some last, [], none⟩
      else deliver (fun _ => true) pre.reverse (some last) := by
    simp only [check_for_new_posts, hrec]
  cases hpe : pre with
  | nil =>
    subst hpe
    rw [hcheck]
    simp
  | cons q qs =>
    have hne : pre.isEmpty = false := by rw [hpe]; rfl
    rw [← hpe] at *
    rw [hcheck, if_neg (by simp [hne])]
    have hdel := deliver_all_ok (fun _ => true) pre.reverse (some last)
      (fun p _ => rfl)
    refine ⟨hdel.1, ?_⟩
    rw [hdel.1]
    rw [List.pairwise_reverse]
    exact hsort

/-- Witness for C1 at a concrete 3-item feed with the checkpoint fourth. -/
theorem c1_resume_oldest_first_witness :
    (("CKPT" : String) ≠ "" ∧
     ([wPost1, wPost2, wPost3] : List Post).length ≤ 50 ∧
     (∀ p ∈ [wPost1, wPost2, wPost3],
       p.date.aware = false ∧ (10000000 : Int) - 7 * 86400 ≤ p.date.value ∧
       p.is_pinned = false ∧ p.shortcode ≠ "CKPT") ∧
     wCk.shortcode = "CKPT" ∧ wCk.date.aware = false ∧
     (10000000 : Int) - 7 * 86400 ≤ wCk.date.value ∧
     ([wPost1, wPost2, wPost3] : List Post).Pairwise
       (fun a b => b.date.value ≤ a.date.value)) ∧
    (reconcile 10000000 3600 0 (some "CKPT")
        ([wPost1, wPost2, wPost3].map Except.ok ++ Except.ok wCk :: [])
      = .ok [wPost1, wPost2, wPost3] ∧
     (check_for_new_posts 10000000 3600 0
        (.ok ([wPost1, wPost2, wPost3].map Except.ok ++ Except.ok wCk :: []))
        (some "CKPT") (fun _ => true)).sent
      = ([wPost1, wPost2, wPost3] : List Post).reverse ∧
     (check_for_new_posts 10000000 3600 0
        (.ok ([wPost1, wPost2, wPost3].map Except.ok ++ Except.ok wCk :: []))
        (some "CKPT") (fun _ => true)).sent.Pairwise
       (fun a b => a.date.value ≤ b.date.value)) :=
  ⟨⟨by decide, by decide, by decide, by decide, by decide, by decide, by decide⟩,
   c1_resume_oldest_first 10000000 3600 0 "CKPT" [wPost1, wPost2, wPost3] wCk []
     (by decide) (by decide) (by decide) (by decide) (by decide) (by decide)
     (by decide)⟩

/-- Claim C2 (code bug): the claim says the 7-day cutoff comparison never
raises a naive-vs-aware mismatch for timezone-aware feed dates, but the code
builds `cutoff_date` from the naive `datetime.now()`, so on the aware-dated
mock of `tests/test_timezone.py` the comparison raises `TypeError`, which no
handler catches: it escapes `fetch_new_posts` and `check_for_new_posts`, and
`main` crashes on it. -/
theorem c2_naive_cutoff_raises :
    fetch_new_posts 10000000 [Except.ok wAware] "CKPT" [] 50
      = .error .tzType ∧
    (check_for_new_posts 10000000 3600 0 (.ok [Except.ok wAware])
        (some "CKPT") (fun _ => true)).exc = some .tzType ∧
    main_step false (check_for_new_posts 10000000 3600 0
        (.ok [Except.ok wAware]) (some "CKPT") (fun _ => true))
      = .crashed .tzType :=
  ⟨rfl, rfl, rfl⟩

/-- Claim C3: any normal return of the resume walk has at most 50 posts and
contains no pinned post; and a within-window, non-checkpoint pinned item is
skipped without any effect at all — in particular without counting toward
the 50-item cap. -/
theorem c3_pinned_skipped_capped :
    (∀ (now : Int) (last : String) (posts : List FeedCell) (batch : List Post),
      fetch_new_posts now posts last [] 50 = .ok batch →
      batch.length ≤ 50 ∧ ∀ p ∈ batch, p.is_pinned = false) ∧
    (∀ (now : Int) (last : String) (p : Post) (rest : List FeedCell),
      p.is_pinned = true → p.date.aware = false →
      now - 7 * 86400 ≤ p.date.value → p.shortcode ≠ last →
      fetch_new_posts now (Except.ok p :: rest) last [] 50 =
        fetch_new_posts now rest last [] 50) := by
  constructor
  · intro now last posts batch h
    exact fetchLoop_ok_inv (fetchCutoff now) last 50 posts [] 0 batch rfl
      (by omega) (by intro p hp; simp at hp) h
  · intro now last p rest hpin ha hv hs
    simp only [fetch_new_posts, fetchLoop, dtLt_within p.date now ha hv, hs,
      hpin, if_false, ite_false, if_true, ite_true, Bool.false_eq_true]

/-- Witness for C3: a pinned post inside the window is transparent to the
walk, and the concrete batch is short and pinned-free. -/
theorem c3_pinned_skipped_capped_witness :
    (fetch_new_posts 10000000
        [Except.ok wPinned, Except.ok wPost1, Except.ok wCk] "CKPT" [] 50
      = .ok [wPost1] ∧
     ([wPost1] : List Post).length ≤ 50 ∧
     (∀ p ∈ [wPost1], p.is_pinned = false)) ∧
    (wPinned.is_pinned = true ∧ wPinned.date.aware = false ∧
     (10000000 : Int) - 7 * 86400 ≤ wPinned.date.value ∧
     wPinned.shortcode ≠ "CKPT" ∧
     fetch_new_posts 10000000 [Except.ok wPinned, Except.ok wPost1, Except.ok wCk]
        "CKPT" [] 50 =
       fetch_new_posts 10000000 [Except.ok wPost1, Except.ok wCk] "CKPT" [] 50) :=
  ⟨⟨rfl,
    (c3_pinned_skipped_capped.1 10000000 "CKPT"
      [Except.ok wPinned, Except.ok wPost1, Except.ok wCk] [wPost1] rfl).1,
    (c3_pinned_skipped_capped.1 10000000 "CKPT"
      [Except.ok wPinned, Except.ok wPost1, Except.ok wCk] [wPost1] rfl).2⟩,
   by decide, by decide, by decide, by decide,
   c3_pinned_skipped_capped.2 10000000 "CKPT" wPinned
     [Except.ok wPost1, Except.ok wCk] (by decide) (by decide) (by decide)
     (by decide)⟩

/-- Claim C4: a transient fetch error (a connection or bad-request exception
from the feed iterator) raised after a clean prefix of accepted items
truncates the walk gracefully: the items accepted before the error are
returned as the batch and the error is not propagated to the caller. -/
theorem c4_transient_error_truncates (now : Int) (last : String)
    (pre : List Post) (e : Exc) (rest : List FeedCell)
    (he : caughtByFetch e = true)
    (hk : pre.length ≤ 50)
    (hpre : ∀ p ∈ pre, p.date.aware = false ∧ now - 7 * 86400 ≤ p.date.value ∧
      p.is_pinned = false ∧ p.shortcode ≠ last) :
    fetch_new_posts now (pre.map Except.ok ++ Except.error e :: rest)
      last [] 50 = .ok pre := by
  have hpre' : ∀ p ∈ pre, dtLt p.date (fetchCutoff now) = .ok false ∧
      p.shortcode ≠ last ∧ p.is_pinned = false := fun p hp =>
    ⟨dtLt_within p.date now (hpre p hp).1 (hpre p hp).2.1,
     (hpre p hp).2.2.2, (hpre p hp).2.2.1⟩
  unfold fetch_new_posts
  rw [fetchLoop_clean_front (fetchCutoff now) last 50 pre
    (Except.error e :: rest) [] 0 hpre' (by omega) (by omega)]
  by_cases h50 : 0 + pre.length = 50
  · rw [if_pos h50]
    simp
  · rw [if_neg h50]
    simp [fetchLoop, he]

/-- Witness for C4: a connection error after two accepted items yields
exactly those two items, with no error. -/
theorem c4_transient_error_truncates_witness :
    (caughtByFetch .conn = true ∧
     ([wPost1, wPost2] : List Post).length ≤ 50 ∧
     (∀ p ∈ [wPost1, wPost2],
       p.date.aware = false ∧ (10000000 : Int) - 7 * 86400 ≤ p.date.value ∧
       p.is_pinned = false ∧ p.shortcode ≠ "CKPT")) ∧
    fetch_new_posts 10000000
      ([wPost1, wPost2].map Except.ok ++ Except.error .conn :: [Except.ok wPost3])
      "CKPT" [] 50 = .ok [wPost1, wPost2] :=
  ⟨⟨by decide, by decide, by decide⟩,
   c4_transient_error_truncates 10000000 "CKPT" [wPost1, wPost2] .conn
     [Except.ok wPost3] (by decide) (by decide) (by decide)⟩

/-- Claim C10: the cutoff check precedes the pinned-post skip: whenever the
first feed item's (naive) creation time is older than 7 days, the walk stops
at once with an empty batch — also when that item is pinned and newer
non-pinned items follow. -/
theorem c10_cutoff_before_pin_skip (now : Int) (last : String) (p : Post)
    (rest : List FeedCell) (ha : p.date.aware = false)
    (hv : p.date.value < now - 7 * 86400) :
    fetch_new_posts now (Except.ok p :: rest) last [] 50 = .ok [] := by
  simp [fetch_new_posts, fetchLoop, dtLt_older p.date now ha hv]

/-- Witness for C10: an old pinned first item stops the walk even though a
fresh non-pinned item follows. -/
theorem c10_cutoff_before_pin_skip_witness :
    (wOldPinned.date.aware = false ∧
     wOldPinned.date.value < (10000000 : Int) - 7 * 86400 ∧
     wOldPinned.is_pinned = true) ∧
    fetch_new_posts 10000000 [Except.ok wOldPinned, Except.ok wPost1]
      "CKPT" [] 50 = .ok [] :=
  ⟨⟨by decide, by decide, by decide⟩,
   c10_cutoff_before_pin_skip 10000000 "CKPT" wOldPinned [Except.ok wPost1]
     (by decide) (by decide)⟩

/-- Claim C5: in bootstrap mode (no checkpoint) with a configured catch-up
count `n > 0` and a feed of at least `n` items, reconciliation accepts
exactly the `n` newest feed items unconditionally, whatever their pinned
status or creation dates. -/
theorem c5_bootstrap_catchup (now refresh_interval : Int) (n : Nat)
    (posts : List Post) (hn : 0 < n) (hlen : n ≤ posts.length) :
    reconcile now refresh_interval n none (posts.map Except.ok)
      = .ok (posts.take n) := by
  simp [reconcile, bootstrap, hn, catchupLoop_map_ok]

/-- Witness for C5: catch-up count 2 over a 3-item feed whose first item is
pinned and whose second is older than the 7-day window. -/
theorem c5_bootstrap_catchup_witness :
    ((0 : Nat) < 2 ∧ (2 : Nat) ≤ ([wPinned, wOldPinned, wPost1] : List Post).length) ∧
    reconcile 10000000 3600 2 none ([wPinned, wOldPinned, wPost1].map Except.ok)
      = .ok ([wPinned, wOldPinned, wPost1].take 2) :=
  ⟨⟨by decide, by decide⟩,
   c5_bootstrap_catchup 10000000 3600 2 [wPinned, wOldPinned, wPost1]
     (by decide) (by decide)⟩

/-- Concrete cycle input for the C6 counterexample: one fresh post to send,
a checkpoint on file, a notifier whose send fails. -/
def c6Post : Post :=
  ⟨"NEWPOST", ⟨false, 9990000⟩, false, "alice", "Alice A", none,
   "https://example.com/n.jpg"⟩

/-- Counterexample to C6 as stated: with one fresh post and a failing send,
the checkpoint is indeed left unchanged, but the failure escapes
`check_for_new_posts` uncaught and `main` (which names only
`LoginRequiredException` and `KeyboardInterrupt`) crashes instead of
continuing the polling loop. -/
theorem c6_counterexample :
    (check_for_new_posts 10000000 3600 0 (.ok [Except.ok c6Post])
        (some "CKPT") (fun _ => false)).mem = some "CKPT" ∧
    (check_for_new_posts 10000000 3600 0 (.ok [Except.ok c6Post])
        (some "CKPT") (fun _ => false)).exc = some .sendFail ∧
    main_step false (check_for_new_posts 10000000 3600 0
        (.ok [Except.ok c6Post]) (some "CKPT") (fun _ => false))
      = .crashed .sendFail ∧
    main_step false (check_for_new_posts 10000000 3600 0
        (.ok [Except.ok c6Post]) (some "CKPT") (fun _ => false))
      ≠ .continueLoop :=
  ⟨rfl, rfl, rfl, by decide⟩

/-- Concrete cycle input for the C6 witness: a second, newer fresh post,
whose send the witness notifier fails. -/
def c6Post2 : Post :=
  ⟨"NEWPOST2", ⟨false, 9991000⟩, false, "alice", "Alice A", none,
   "https://example.com/n2.jpg"⟩

/-- A send failure at any position of the delivery loop: the successful
prefix is sent, the checkpoint is the last successfully sent item's
shortcode (or the incoming memory when the failure is first), and the send
exception escapes. -/
theorem deliver_fail_after (sendOk : Post → Bool) :
    ∀ (good : List Post) (p : Post) (rest : List Post) (mem : Option String),
    (∀ q ∈ good, sendOk q = true) → sendOk p = false →
    deliver sendOk (good ++ p :: rest) mem =
      ⟨(good.getLast?).elim mem (fun q => some q.shortcode), good,
       some .sendFail⟩ := by
  intro good
  induction good with
  | nil =>
    intro p rest mem _ hp
    simp [deliver, hp]
  | cons q gs ih =>
    intro p rest mem hgood hp
    have hq := hgood q (List.mem_cons_self q gs)
    have hrec := ih p rest (some q.shortcode)
      (fun x hx => hgood x (List.mem_cons_of_mem q hx)) hp
    simp only [List.cons_append, List.append_eq, deliver, hq, if_true, hrec]
    cases gs with
    | nil => simp [List.getLast?]
    | cons g gs2 =>
      rw [List.getLast?_cons_cons, List.getLast?_eq_getLast (g :: gs2) (by simp)]
      rfl

/-- Claim C6 as amended: when the notifier's send of an item fails — at any
position of the oldest-first send order, after `good` successful sends —
that item's shortcode is not checkpointed: the saved checkpoint remains what
it was before the attempt (the last successfully sent item's shortcode, or
the cycle's incoming checkpoint when nothing was sent yet), and only the
successful prefix was sent; but the failure propagates uncaught past the
orchestrator boundary: it escapes `check_for_new_posts`, and `main` crashes
on it instead of continuing the polling loop, so the item is only retried
after an external restart. -/
theorem c6_send_failure_not_checkpointed (now refresh_interval : Int)
    (catchup : Nat) (feed : List FeedCell) (mem : Option String)
    (sendOk : Post → Bool) (last : String) (batch : List Post)
    (good : List Post) (p : Post) (ps : List Post) (once : Bool)
    (hmem : mem = some last) (hlast : last ≠ "")
    (hfetch : fetch_new_posts now feed last [] 50 = .ok batch)
    (hrev : batch.reverse = good ++ p :: ps)
    (hgood : ∀ q ∈ good, sendOk q = true)
    (hsend : sendOk p = false) :
    check_for_new_posts now refresh_interval catchup (.ok feed) mem sendOk
      = ⟨(good.getLast?).elim mem (fun q => some q.shortcode), good,
         some .sendFail⟩ ∧
    main_step once (check_for_new_posts now refresh_interval catchup
      (.ok feed) mem sendOk) = .crashed .sendFail := by
  have hne : batch.isEmpty = false := by
    cases batch with
    | nil => simp at hrev
    | cons a l => rfl
  subst hmem
  have hrec : reconcile now refresh_interval catchup (some last) feed
      = .ok batch := by
    simp only [reconcile]
    rw [if_pos hlast]
    exact hfetch
  have hout : check_for_new_posts now refresh_interval catchup (.ok feed)
      (some last) sendOk
      = ⟨(good.getLast?).elim (some last) (fun q => some q.shortcode), good,
         some .sendFail⟩ := by
    simp only [check_for_new_posts, hrec, hne, Bool.false_eq_true, if_false,
      ite_false, hrev]
    exact deliver_fail_after sendOk good p ps (some last) hgood hsend
  exact ⟨hout, by rw [hout]; rfl⟩

/-- Witness for the amended C6: a two-post batch whose older post sends
successfully and whose newer post fails, so the checkpoint stops at the
successful item's shortcode, not the failing one's. -/
theorem c6_send_failure_not_checkpointed_witness :
    ((some "CKPT" : Option String) = some "CKPT" ∧ ("CKPT" : String) ≠ "" ∧
     fetch_new_posts 10000000 [Except.ok c6Post2, Except.ok c6Post]
       "CKPT" [] 50 = .ok [c6Post2, c6Post] ∧
     ([c6Post2, c6Post] : List Post).reverse = [c6Post] ++ c6Post2 :: [] ∧
     (∀ q ∈ [c6Post],
       (fun (x : Post) => decide (x.shortcode = "NEWPOST")) q = true) ∧
     (fun (x : Post) => decide (x.shortcode = "NEWPOST")) c6Post2 = false) ∧
    (check_for_new_posts 10000000 3600 0
        (.ok [Except.ok c6Post2, Except.ok c6Post]) (some "CKPT")
        (fun x => decide (x.shortcode = "NEWPOST"))
      = ⟨(([c6Post] : List Post).getLast?).elim (some "CKPT")
          (fun q => some q.shortcode), [c6Post], some .sendFail⟩ ∧
     main_step false (check_for_new_posts 10000000 3600 0
        (.ok [Except.ok c6Post2, Except.ok c6Post]) (some "CKPT")
        (fun x => decide (x.shortcode = "NEWPOST")))
      = .crashed .sendFail) :=
  ⟨⟨rfl, by decide, rfl, rfl, by decide, by decide⟩,
   c6_send_failure_not_checkpointed 10000000 3600 0
     [Except.ok c6Post2, Except.ok c6Post] (some "CKPT")
     (fun x => decide (x.shortcode = "NEWPOST")) "CKPT" [c6Post2, c6Post]
     [c6Post] c6Post2 [] false rfl (by decide) rfl rfl (by decide)
     (by decide)⟩

/-- Counterexample to C7 as stated: a login-required condition raised while
fetching the profile handle is caught by `check_for_new_posts` together with
connection and not-found errors and handled as a skip-this-cycle recoverable
condition — the cycle returns normally with no state change and the polling
loop continues, instead of terminating the process. -/
theorem c7_counterexample :
    check_for_new_posts 10000000 3600 0 (.error .loginReq) (some "CKPT")
        (fun _ => true) = ⟨some "CKPT", [], none⟩ ∧
    main_step false (check_for_new_posts 10000000 3600 0 (.error .loginReq)
        (some "CKPT") (fun _ => true)) = .continueLoop ∧
    main_step false (check_for_new_posts 10000000 3600 0 (.error .loginReq)
        (some "CKPT") (fun _ => true))
      ≠ .fatalExit "Not logged in. Please login with the --login flag." :=
  ⟨rfl, rfl, by decide⟩

/-- Claim C7 as amended: a login-required condition raised at the profile
fetch is handled as skip-this-cycle (logged, state unchanged, loop
continues); only a login-required condition raised later — here from the
feed iterator during the resume walk — propagates to `main`, which
terminates the loop with the actionable `SystemExit` message and a non-zero
exit. -/
theorem c7_login_required_split :
    (∀ (now refresh_interval : Int) (catchup : Nat) (mem : Option String)
      (sendOk : Post → Bool),
      check_for_new_posts now refresh_interval catchup (.error .loginReq)
          mem sendOk = ⟨mem, [], none⟩ ∧
      main_step false (check_for_new_posts now refresh_interval catchup
          (.error .loginReq) mem sendOk) = .continueLoop) ∧
    (∀ (now refresh_interval : Int) (catchup : Nat) (last : String)
      (rest : List FeedCell) (sendOk : Post → Bool) (once : Bool),
      last ≠ "" →
      check_for_new_posts now refresh_interval catchup
          (.ok (Except.error .loginReq :: rest)) (some last) sendOk
        = ⟨some last, [], some .loginReq⟩ ∧
      main_step once (check_for_new_posts now refresh_interval catchup
          (.ok (Except.error .loginReq :: rest)) (some last) sendOk)
        = .fatalExit "Not logged in. Please login with the --login flag.") := by
  constructor
  · intro now refresh_interval catchup mem sendOk
    exact ⟨rfl, rfl⟩
  · intro now refresh_interval catchup last rest sendOk once hlast
    have hrec : reconcile now refresh_interval catchup (some last)
        (Except.error .loginReq :: rest) = .error .loginReq := by
      simp only [reconcile]
      rw [if_pos hlast]
      rfl
    have hout : check_for_new_posts now refresh_interval catchup
        (.ok (Except.error .loginReq :: rest)) (some last) sendOk
        = ⟨some last, [], some .loginReq⟩ := by
      simp only [check_for_new_posts, hrec]
    exact ⟨hout, by rw [hout]; rfl⟩

/-- Witness for the amended C7 at concrete inputs for both arms. -/
theorem c7_login_required_split_witness :
    (check_for_new_posts 10000000 3600 0 (.error .loginReq) (some "CKPT")
        (fun _ => true) = ⟨some "CKPT", [], none⟩ ∧
     main_step false (check_for_new_posts 10000000 3600 0 (.error .loginReq)
        (some "CKPT") (fun _ => true)) = .continueLoop) ∧
    (("CKPT" : String) ≠ "" ∧
     check_for_new_posts 10000000 3600 0
        (.ok [Except.error .loginReq]) (some "CKPT") (fun _ => true)
       = ⟨some "CKPT", [], some .loginReq⟩ ∧
     main_step true (check_for_new_posts 10000000 3600 0
        (.ok [Except.error .loginReq]) (some "CKPT") (fun _ => true))
       = .fatalExit "Not logged in. Please login with the --login flag.") :=
  ⟨c7_login_required_split.1 10000000 3600 0 (some "CKPT") (fun _ => true),
   by decide,
   (c7_login_required_split.2 10000000 3600 0 "CKPT" [] (fun _ => true) true
     (by decide)).1,
   (c7_login_required_split.2 10000000 3600 0 "CKPT" [] (fun _ => true) true
     (by decide)).2⟩

/-- Claim C9: `format_message` writes the substituted string back into the
module-global `args.message_content`, so once the first post's substitution
has consumed the placeholders (none of the second post's placeholder
patterns occurs in the result), every later send reuses the first post's
substituted content instead of formatting a fresh template. -/
theorem c9_global_template_overwrite (p1 p2 : Post) (t : String) (ht : t ≠ "")
    (h : ∀ pv ∈ placeholder_pairs p2,
      hasSubstr pv.1.data (format_message p1 t).data = false) :
    delivered_contents [p1, p2] t
      = [format_message p1 t, format_message p1 t] := by
  have h1 : send_to_discord_mc p1 t = format_message p1 t := by
    unfold send_to_discord_mc
    rw [if_pos ht]
  by_cases hc1 : format_message p1 t = ""
  · have h2 : send_to_discord_mc p2 (format_message p1 t)
        = format_message p1 t := by
      unfold send_to_discord_mc
      rw [if_neg (by simp [hc1])]
    simp [delivered_contents, h1, h2]
  · have h2 : send_to_discord_mc p2 (format_message p1 t)
        = format_message p1 t := by
      unfold send_to_discord_mc
      rw [if_pos hc1]
      exact format_message_id p2 (format_message p1 t) h
    simp [delivered_contents, h1, h2]

/-- Witness for C9: with the template `New post: {post_url}` the second send
repeats the first post's substituted content, which differs from what a
fresh substitution for the second post would produce. -/
theorem c9_global_template_overwrite_witness :
    (("New post: {post_url}" : String) ≠ "" ∧
     (∀ pv ∈ placeholder_pairs wPost2,
       hasSubstr pv.1.data
         (format_message wPost1 "New post: {post_url}").data = false)) ∧
    delivered_contents [wPost1, wPost2] "New post: {post_url}"
      = [format_message wPost1 "New post: {post_url}",
         format_message wPost1 "New post: {post_url}"] ∧
    format_message wPost2 "New post: {post_url}"
      ≠ format_message wPost1 "New post: {post_url}" :=
  ⟨⟨by decide, by decide⟩,
   c9_global_template_overwrite wPost1 wPost2 "New post: {post_url}"
     (by decide) (by decide),
   by decide⟩

/-- Claim C8: loading persisted state whose content is non-JSON plain text
yields a migrated structured record with exactly one entry carrying the
trimmed text as its shortcode and with `stats.total_sent = 1` (settled
against the spec-modelled `load_memory`, which `src/` does not contain). -/
theorem c8_plain_text_migration (now : DateTime) (raw : String) :
    (load_memory now (.plainText raw)).sent_posts
      = [⟨raw.trim, now, now, none, none, none, none, none, none⟩] ∧
    (load_memory now (.plainText raw)).sent_posts.map SentPostEntry.shortcode
      = [raw.trim] ∧
    (load_memory now (.plainText raw)).stats.total_sent = 1 :=
  ⟨rfl, rfl, rfl⟩
